import Mathlib

/-!
Verification of the book-catalog HTTP service (src/server.js) against its
natural-language specification.

The development is a shallow embedding of the Express application:

* `Book` mirrors the mongoose `Book` model (numeric fields as `ℚ`, the type
  of values the store's `Number` fields range over here).
* `jsNumberParse` models the mongoose `Number` cast applied to the raw
  `:bookID` route parameter by `Book.findOne({ bookID: ... })`: the empty
  string casts to null, any other string is cast with JavaScript
  `Number(...)`, and only `NaN` raises a `CastError` (modelled as `none`) —
  so whitespace-only strings cast to 0 and the `Infinity` literals to the
  infinity values, which match no record.  The full StringNumericLiteral
  grammar is covered; doubles are modelled as exact rationals (see the
  definition's comment for the one resulting boundary).
* `regexParse`/`regexTest` model `new RegExp(s, "i")` and its `$regex`
  search over the `authors` field for the fragment of patterns made of
  plain characters and the `.` wildcard; any other metacharacter is
  modelled as a construction failure (`(` alone is a genuine JavaScript
  `SyntaxError`; the other rejected characters are outside the model and
  no theorem below instantiates them).
* Each route handler returns the list of store operations it issues and,
  unless an uncaught exception escapes it, the list of response emissions
  it performs (each `res.json`/`res.send` call is one emission, in program
  order).  At the HTTP layer only the first emission reaches the client
  (`clientView`); a second emission throws `ERR_HTTP_HEADERS_SENT`.
* The seeding code (lines 29-40) and server start (line 109) are modelled
  operationally: `validTrace` characterises the event interleavings the
  code admits — `deleteMany` is awaited inside `seedDatabase`, so it
  precedes every `save` completion, but the `save` promises are not awaited
  and `seedDatabase()` itself is not awaited before `app.listen`, so
  completions of the inserts are unordered with respect to the server
  accepting requests.

The seed dataset `booksData` (src/data/books.json) is not part of the
sources; where a concrete dataset is needed it is modelled from the
specification's concrete scenario (spec §8).
-/

/-- A book record, mirroring the mongoose `Book` model of src/server.js
lines 14-25.  Numeric fields are rationals, which contain every value the
seed data and the query thresholds use. -/
structure Book where
  bookID : ℚ
  title : String
  authors : String
  average_rating : ℚ
  isbn : String
  isbn13 : ℚ
  language_code : String
  num_pages : ℚ
  ratings_count : ℚ
  text_reviews_count : ℚ
deriving DecidableEq, Repr

/-- The store state: the collection of `Book` documents in store order. -/
abbrev Store := List Book

/-- A value the store's `Number` cast can produce for the `bookID` query:
a finite rational, one of the two infinities, or the null that mongoose
substitutes for an empty string (`val === ''` casts to `null`, which
matches only documents whose `bookID` is missing or null — no record of
the embedded `Book` model, whose id is always a number). -/
inductive JsNumber where
  | finite (q : ℚ)
  | posInf
  | negInf
  | nullVal
deriving DecidableEq, Repr

namespace JsParse

/-- Value of a list of decimal digit characters. -/
def digitsVal (l : List Char) : Nat :=
  l.foldl (fun a c => a * 10 + (c.toNat - 48)) 0

/-- Value of a list of hexadecimal digit characters. -/
def hexVal (l : List Char) : Nat :=
  l.foldl (fun a c =>
    a * 16 + (if c.isDigit then c.toNat - 48
              else if 'a' ≤ c ∧ c ≤ 'f' then c.toNat - 87
              else c.toNat - 55)) 0

def isHexDigit (c : Char) : Bool :=
  c.isDigit || ('a' ≤ c && c ≤ 'f') || ('A' ≤ c && c ≤ 'F')

def isOctDigit (c : Char) : Bool := '0' ≤ c && c ≤ '7'

def isBinDigit (c : Char) : Bool := c = '0' || c = '1'

/-- Value of a list of octal digit characters. -/
def octVal (l : List Char) : Nat :=
  l.foldl (fun a c => a * 8 + (c.toNat - 48)) 0

/-- Value of a list of binary digit characters. -/
def binVal (l : List Char) : Nat :=
  l.foldl (fun a c => a * 2 + (c.toNat - 48)) 0

/-- The whitespace characters the JavaScript `Number` conversion strips:
WhiteSpace (TAB, VT, FF, SP, NBSP, ZWNBSP and the Space_Separator
category) and LineTerminator (LF, CR, LS, PS). -/
def jsWhitespace : List Char :=
  [' ', '\t', '\n', '\r', '\x0b', '\x0c',
   '\u00A0', '\u1680', '\u2000', '\u2001', '\u2002', '\u2003', '\u2004',
   '\u2005', '\u2006', '\u2007', '\u2008', '\u2009', '\u200A', '\u202F',
   '\u205F', '\u3000', '\u2028', '\u2029', '\uFEFF']

/-- Whitespace stripped by the JavaScript `Number` conversion. -/
def isJsWs (c : Char) : Bool :=
  c ∈ jsWhitespace

/-- The character list of the `Infinity` literal. -/
def infinityChars : List Char :=
  ['I', 'n', 'f', 'i', 'n', 'i', 't', 'y']

/-- Parse the decimal-literal part `digits [. digits] [e [sign] digits]`
(after an optional sign has been removed).  Returns `none` when the text is
not such a literal. -/
def decLiteral (cs : List Char) : Option ℚ :=
  let intPart := cs.takeWhile (fun c => c.isDigit)
  let rest := cs.dropWhile (fun c => c.isDigit)
  let fr : List Char × List Char :=
    match rest with
    | '.' :: tl => (tl.takeWhile (fun c => c.isDigit), tl.dropWhile (fun c => c.isDigit))
    | _ => ([], rest)
  let fracPart := fr.1
  let rest2 := fr.2
  if intPart.isEmpty && fracPart.isEmpty then none
  else
    let num : Nat := digitsVal intPart * 10 ^ fracPart.length + digitsVal fracPart
    let den : Nat := 10 ^ fracPart.length
    match rest2 with
    | [] => some (mkRat num den)
    | e :: tl =>
      if e = 'e' ∨ e = 'E' then
        let (eneg, edigits) : Bool × List Char :=
          match tl with
          | '-' :: tl2 => (true, tl2)
          | '+' :: tl2 => (false, tl2)
          | tl2 => (false, tl2)
        if edigits.isEmpty || !(edigits.all (fun c => c.isDigit)) then none
        else if eneg then some (mkRat num (den * 10 ^ digitsVal edigits))
        else some (mkRat (num * 10 ^ digitsVal edigits) den)
      else none

/-- Model of the mongoose `Number` cast of a raw string: the exact empty
string casts to null (`val === ''` in mongoose), everything else goes
through JavaScript `Number(s)` with `NaN` mapped to `none`, i.e. a
`CastError`.  `Number` trims whitespace (a string of only whitespace
yields 0) and accepts the optionally signed `Infinity` literal, signed
decimal literals with optional fraction and exponent, and the unsigned
`0x`/`0o`/`0b` integer literals, per the StringNumericLiteral grammar.
Values are exact rationals: the one remaining model boundary is double
overflow/rounding — a finite literal beyond double range (e.g. `1e999`)
is `Infinity` in JavaScript but stays a finite rational here; no raw id
exercised by a theorem is in that region. -/
def jsNumberParse (s : String) : Option JsNumber :=
  if s = "" then some .nullVal
  else
    let cs := (s.data.dropWhile isJsWs).reverse.dropWhile isJsWs |>.reverse
    match cs with
    | [] => some (.finite 0)
    | '0' :: x :: tl =>
      if x = 'x' ∨ x = 'X' then
        if !tl.isEmpty && tl.all isHexDigit then some (.finite (hexVal tl)) else none
      else if x = 'o' ∨ x = 'O' then
        if !tl.isEmpty && tl.all isOctDigit then some (.finite (octVal tl)) else none
      else if x = 'b' ∨ x = 'B' then
        if !tl.isEmpty && tl.all isBinDigit then some (.finite (binVal tl)) else none
      else (decLiteral cs).map .finite
    | '-' :: tl =>
      if tl = infinityChars then some .negInf
      else (decLiteral tl).map (fun q => .finite (-q))
    | '+' :: tl =>
      if tl = infinityChars then some .posInf
      else (decLiteral tl).map .finite
    | _ =>
      if cs = infinityChars then some .posInf
      else (decLiteral cs).map .finite

end JsParse

export JsParse (jsNumberParse)

/-- One token of the modelled pattern language: a plain character or the
`.` wildcard. -/
inductive RegexToken where
  | dot
  | lit (c : Char)
deriving DecidableEq, Repr

namespace Rx

/-- Pattern characters the model does not cover; each is either a
JavaScript `SyntaxError` on its own (e.g. `(`) or outside the modelled
fragment. -/
def metachars : List Char :=
  ['\\', '^', '$', '*', '+', '?', '(', ')', '[', ']', '\x7b', '\x7d', '|']

/-- Parse a raw pattern string into tokens; fails on any metacharacter. -/
def regexParseAux : List Char → Except String (List RegexToken)
  | [] => .ok []
  | c :: cs =>
    if c = '.' then (regexParseAux cs).map (RegexToken.dot :: ·)
    else if c ∈ metachars then .error "invalid or unmodelled pattern syntax"
    else (regexParseAux cs).map (RegexToken.lit c :: ·)

/-- Model of `new RegExp(s, "i")` on the fragment of patterns made of plain
characters and the `.` wildcard.  `(` alone is a genuine JavaScript
`SyntaxError`. -/
def regexParse (s : String) : Except String (List RegexToken) :=
  regexParseAux s.data

/-- Case-insensitive match of one token against one character. -/
def tokenMatches (t : RegexToken) (c : Char) : Bool :=
  match t with
  | .dot => true
  | .lit l => l.toLower = c.toLower

/-- The token list matches a prefix of the character list. -/
def matchHere : List RegexToken → List Char → Bool
  | [], _ => true
  | _ :: _, [] => false
  | t :: ts, c :: cs => tokenMatches t c && matchHere ts cs

/-- The token list matches at some position of the character list. -/
def regexSearch (ts : List RegexToken) : List Char → Bool
  | [] => matchHere ts []
  | c :: cs => matchHere ts (c :: cs) || regexSearch ts cs

/-- Model of `RegExp.prototype.test` with the `i` flag: an unanchored
search for the token sequence. -/
def regexTest (ts : List RegexToken) (s : String) : Bool :=
  regexSearch ts s.data

end Rx

export Rx (regexParse regexTest)

/-- The query predicates the routes build (the mongoose filter documents of
src/server.js). -/
inductive QueryPred where
  | all
  | bookIdEq (n : JsNumber)
  | avgRatingGte (r : ℚ)
  | avgRatingGteAndPagesLte (r p : ℚ)
  | authorsRegex (ts : List RegexToken)
deriving Repr

/-- Evaluate a predicate on one record, as the store does. -/
def evalPred : QueryPred → Book → Bool
  | .all, _ => true
  | .bookIdEq n, b =>
    match n with
    | .finite q => decide (b.bookID = q)
    | _ => false
  | .avgRatingGte r, b => decide (r ≤ b.average_rating)
  | .avgRatingGteAndPagesLte r p, b =>
    decide (r ≤ b.average_rating) && decide (b.num_pages ≤ p)
  | .authorsRegex ts, b => regexTest ts b.authors

/-- A store operation issued by the application. -/
inductive StoreOp where
  | find (p : QueryPred)
  | findOne (p : QueryPred)
  | deleteMany
  | save (b : Book)
deriving Repr

/-- Whether an operation only reads the collection. -/
def StoreOp.isRead : StoreOp → Bool
  | .find _ => true
  | .findOne _ => true
  | _ => false

/-- Effect of one operation on the collection.  Reads leave it unchanged;
`deleteMany` empties it; `save` appends. -/
def applyStoreOp (s : Store) : StoreOp → Store
  | .find _ => s
  | .findOne _ => s
  | .deleteMany => []
  | .save b => s ++ [b]

/-- `Book.find(p)`: all records satisfying `p`, in store order. -/
def interpFind (s : Store) (p : QueryPred) : List Book :=
  s.filter (evalPred p)

/-- `Book.findOne(p)`: the first record in store order satisfying `p`. -/
def interpFindOne (s : Store) (p : QueryPred) : Option Book :=
  s.find? (evalPred p)

/-- The body of one HTTP response emission. -/
inductive HttpBody where
  | jsonBooks (bs : List Book)
  | jsonBook (b : Book)
  | jsonStr (s : String)
  | jsonErrObj (msg : String)
  | plain (s : String)
deriving DecidableEq, Repr

/-- One response emission: a status code and a body (`res.json` defaults to
status 200; `res.status(c).json` sets `c`). -/
structure Response where
  status : Nat
  body : HttpBody
deriving DecidableEq, Repr

/-- An exception that escapes a handler uncaught (the route has no
try/catch around the failing step). -/
inductive JsError where
  | badPattern (msg : String)
deriving DecidableEq, Repr

/-- Result of running one handler: the store operations it issued, and
either the emissions it performed or an uncaught exception. -/
abbrev HandlerResult := List StoreOp × Except JsError (List Response)

/-- The emissions of a handler run (empty when an exception escaped before
any emission, as happens on the one uncaught failure modelled here). -/
def emissions (h : HandlerResult) : List Response :=
  match h.2 with
  | .ok rs => rs
  | .error _ => []

/-- The response the client actually receives: the first emission.  Any
later emission fails at the HTTP layer with `ERR_HTTP_HEADERS_SENT` and
never reaches the client. -/
def clientView (h : HandlerResult) : Option Response :=
  (emissions h).head?

/-- A request to one of the five routes.  Path parameters are carried as
their decoded raw strings; `topRated` carries the `quickRead` query
parameter (`none` when absent, `some ""` when supplied empty). -/
inductive Request where
  | root
  | books
  | book (bookID : String)
  | authors (authorName : String)
  | topRated (quickRead : Option String)
deriving DecidableEq, Repr

/-- JavaScript truthiness of an optional string query parameter: present
and non-empty. -/
def queryTruthy : Option String → Bool
  | none => false
  | some v => !(v == "")

/-- Handler of `GET /` (src/server.js lines 51-53). -/
def rootHandler : HandlerResult :=
  ([], .ok [⟨200, .plain "Hello world, welcome to Vane Bookish API, now powered by MongoDB!"⟩])

/-- Handler of `GET /books` (src/server.js lines 56-59). -/
def booksHandler (s : Store) : HandlerResult :=
  let allBooks := interpFind s .all
  ([.find .all], .ok [⟨200, .jsonBooks allBooks⟩])

/-- Handler of `GET /books/book/:bookID` (src/server.js lines 62-76).  The
raw parameter is cast by the store; a cast failure is the `CastError` the
route's try/catch turns into a 400. -/
def singleBookHandler (s : Store) (bookID : String) : HandlerResult :=
  match jsNumberParse bookID with
  | none =>
    ([], .ok [⟨400, .jsonErrObj "Invalid Book ID, double check book id value"⟩])
  | some n =>
    let p := QueryPred.bookIdEq n
    match interpFindOne s p with
    | some singleBook => ([.findOne p], .ok [⟨200, .jsonBook singleBook⟩])
    | none => ([.findOne p], .ok [⟨404, .jsonStr "Sorry, no books found with that ID :("⟩])

/-- Handler of `GET /books/authors/:authorName` (src/server.js lines
79-90).  The raw parameter is compiled to a case-insensitive regular
expression; the route has no try/catch, so a pattern-construction failure
escapes uncaught.  On zero matches the handler emits a 404 and then,
lacking a return, also emits the 200 with the empty array. -/
def authorsHandler (s : Store) (authorName : String) : HandlerResult :=
  match regexParse authorName with
  | .error e => ([], .error (.badPattern e))
  | .ok re =>
    let p := QueryPred.authorsRegex re
    let authorBooks := interpFind s p
    if authorBooks.length = 0 then
      ([.find p],
       .ok [⟨404, .jsonStr "Sorry, could not find any books by thay author, double check author name :("⟩,
            ⟨200, .jsonBooks authorBooks⟩])
    else
      ([.find p], .ok [⟨200, .jsonBooks authorBooks⟩])

/-- Handler of `GET /books/top-rated` (src/server.js lines 94-106).  When
the `quickRead` flag is truthy the handler emits the quick-read result and
then, lacking a return, also emits the unfiltered top-rated result. -/
def topRatedHandler (s : Store) (quickRead : Option String) : HandlerResult :=
  let quickReadParam := quickRead
  let pTop := QueryPred.avgRatingGte 4
  let topBooks := interpFind s pTop
  if queryTruthy quickReadParam then
    let pQuick := QueryPred.avgRatingGteAndPagesLte 4 600
    let topQuickReadBooks := interpFind s pQuick
    ([.find pTop, .find pQuick],
     .ok [⟨200, .jsonBooks topQuickReadBooks⟩, ⟨200, .jsonBooks topBooks⟩])
  else
    ([.find pTop], .ok [⟨200, .jsonBooks topBooks⟩])

/-- The request router: dispatch a request to its route handler. -/
def handle (s : Store) : Request → HandlerResult
  | .root => rootHandler
  | .books => booksHandler s
  | .book bookID => singleBookHandler s bookID
  | .authors authorName => authorsHandler s authorName
  | .topRated quickRead => topRatedHandler s quickRead

/-- The specification's notion of case-insensitive literal substring
containment, used to state the author-search contract (spec §4.2, §8):
`needle` occurs verbatim in `hay` up to letter case, with every character
of `needle` taken literally. -/
def litHere : List Char → List Char → Bool
  | [], _ => true
  | _ :: _, [] => false
  | a :: as, b :: bs => (a.toLower = b.toLower) && litHere as bs

/-- Auxiliary search for `containsCI`. -/
def containsCIAux (n : List Char) : List Char → Bool
  | [] => litHere n []
  | c :: cs => litHere n (c :: cs) || containsCIAux n cs

/-- `containsCI hay needle` holds when `needle` is a case-insensitive
literal substring of `hay`. -/
def containsCI (hay needle : String) : Bool :=
  containsCIAux needle.data hay.data

/-- The specification's notion of a string parsing as an integer (spec
§4.2: convert the raw textual id into an integer), used only to state the
identifier claim: an optional sign followed by one or more decimal
digits. -/
def specParsesAsInteger (s : String) : Bool :=
  match s.data with
  | '-' :: tl => !tl.isEmpty && tl.all (fun c => c.isDigit)
  | '+' :: tl => !tl.isEmpty && tl.all (fun c => c.isDigit)
  | cs => !cs.isEmpty && cs.all (fun c => c.isDigit)

/-- Startup events of the seeding/listen code (src/server.js lines 29-40
and 109): completion of the awaited `deleteMany`, completion of the i-th
fire-and-forget `save`, the server starting to accept connections, and an
inbound request being served. -/
inductive Event where
  | deleteDone
  | saveDone (i : Nat)
  | listen
  | request (r : Request)
deriving DecidableEq, Repr

/-- No `saveDone` occurs before the `deleteDone`: `deleteMany` is awaited
inside `seedDatabase` before any `save` is issued. -/
def deleteBeforeSaves : List Event → Bool
  | [] => true
  | .deleteDone :: _ => true
  | .saveDone _ :: _ => false
  | _ :: tl => deleteBeforeSaves tl

/-- No request is served before `listen`. -/
def listenBeforeRequests : List Event → Bool
  | [] => true
  | .listen :: _ => true
  | .request _ :: _ => false
  | _ :: tl => listenBeforeRequests tl

/-- The complete startup interleavings the code admits when the reseed
flag is set and the dataset has `n` records: each completion event occurs
exactly once, `deleteMany` completes before every `save` completes, and
requests arrive only after `listen`.  Nothing orders the `save`
completions (or even `deleteDone`) relative to `listen`, because the
`save` promises are not awaited and `seedDatabase()` is not awaited before
`app.listen` (src/server.js lines 35-39, 109). -/
def validTrace (n : Nat) (tr : List Event) : Bool :=
  tr.count .deleteDone = 1 &&
  tr.count .listen = 1 &&
  (List.range n).all (fun i => tr.count (.saveDone i) = 1) &&
  tr.all (fun e => match e with | .saveDone i => decide (i < n) | _ => true) &&
  deleteBeforeSaves tr &&
  listenBeforeRequests tr

/-- Effect of one startup event on the store, given the dataset `ds` being
seeded. -/
def applyEvent (ds : List Book) (s : Store) : Event → Store
  | .deleteDone => applyStoreOp s .deleteMany
  | .saveDone i =>
    match ds[i]? with
    | some b => applyStoreOp s (.save b)
    | none => s
  | _ => s

/-- Store contents after a list of startup events. -/
def storeAfter (ds : List Book) (s : Store) : List Event → Store
  | [] => s
  | e :: tl => storeAfter ds (applyEvent ds s e) tl

/-- The responses each request in the trace observes, served against the
store as it stands when the request is handled. -/
def observations (ds : List Book) (s : Store) : List Event → List (Request × List Response)
  | [] => []
  | .request r :: tl => (r, emissions (handle s r)) :: observations ds s tl
  | e :: tl => observations ds (applyEvent ds s e) tl

/-- Modelled from the spec: the seed dataset src/data/books.json is not
among the sources, so the concrete dataset is the specification's concrete
scenario (spec §8): book id 1, authors "Stephen King", average_rating 4.5,
num_pages 500, and book id 2, authors "J.K. Rowling", average_rating 3.9,
num_pages 700.  Fields the scenario leaves open are filled with fixed
placeholder values; no theorem depends on them. -/
def book1 : Book :=
  { bookID := 1, title := "Book One", authors := "Stephen King",
    average_rating := mkRat 9 2, isbn := "0000000001", isbn13 := 1,
    language_code := "eng", num_pages := 500, ratings_count := 10,
    text_reviews_count := 1 }

/-- Modelled from the spec: second record of the spec §8 scenario. -/
def book2 : Book :=
  { bookID := 2, title := "Book Two", authors := "J.K. Rowling",
    average_rating := mkRat 39 10, isbn := "0000000002", isbn13 := 2,
    language_code := "eng", num_pages := 700, ratings_count := 20,
    text_reviews_count := 2 }

/-- Modelled from the spec: the spec §8 scenario dataset. -/
def specDataset : List Book := [book1, book2]

/-- A third record used only to exhibit a store on which the top-rated and
quick-read result sets differ (rating above 4, more than 600 pages). -/
def book3 : Book :=
  { bookID := 3, title := "Book Three", authors := "Long Writer",
    average_rating := mkRat 42 10, isbn := "0000000003", isbn13 := 3,
    language_code := "eng", num_pages := 800, ratings_count := 30,
    text_reviews_count := 3 }

/-- A store on which the unfiltered top-rated set and the quick-read set
differ: `book1` and `book3` are top rated, only `book1` is a quick read. -/
def cexStore : List Book := [book1, book2, book3]

/-- A startup interleaving the code admits: the server starts listening,
the awaited `deleteMany` completes, a `GET /books` request is served, and
only then do the two fire-and-forget `save` calls complete. -/
def seedRaceTrace : List Event :=
  [.listen, .deleteDone, .request .books, .saveDone 0, .saveDone 1]

/-- The specification side of the single-record contract: `b` is the first
record in store order whose id equals `q`. -/
def firstMatchById (s : List Book) (q : ℚ) (b : Book) : Prop :=
  b.bookID = q ∧ ∃ pre post, s = pre ++ b :: post ∧ ∀ a ∈ pre, a.bookID ≠ q

/-- C9: ordinary request handling is read-only — every store operation any
of the five route handlers issues on any request and any store is a read,
and replaying the issued operations leaves the collection unchanged, so no
record is created, mutated or deleted by request handling. -/
theorem routeHandlersReadOnly (s : Store) (r : Request) :
    ((handle s r).1.all StoreOp.isRead = true) ∧
    List.foldl applyStoreOp s (handle s r).1 = s := by
  cases r with
  | root => simp [handle, rootHandler]
  | books => simp [handle, booksHandler, StoreOp.isRead, applyStoreOp]
  | book bookID =>
    simp only [handle, singleBookHandler]
    cases jsNumberParse bookID with
    | none => simp
    | some n =>
      cases h : interpFindOne s (QueryPred.bookIdEq n) <;>
        simp [h, StoreOp.isRead, applyStoreOp]
  | authors authorName =>
    simp only [handle, authorsHandler]
    cases regexParse authorName with
    | error e => simp
    | ok re =>
      by_cases h : (interpFind s (QueryPred.authorsRegex re)).length = 0 <;>
        simp [h, StoreOp.isRead, applyStoreOp]
  | topRated quickRead =>
    simp only [handle, topRatedHandler]
    cases hq : queryTruthy quickRead <;> simp [StoreOp.isRead, applyStoreOp]

/-- C10: a `quickRead` query parameter supplied with an empty value is
treated exactly as an absent one — the handler behaves identically to the
flagless request and emits only the baseline response with exactly the
records of average_rating at least 4; the num_pages conjunct is not
applied. -/
theorem quickReadEmptyTreatedAsAbsent (s : Store) :
    handle s (.topRated (some "")) = handle s (.topRated none) ∧
    emissions (handle s (.topRated (some ""))) =
      [⟨200, .jsonBooks (s.filter (fun b => decide ((4 : ℚ) ≤ b.average_rating)))⟩] :=
  ⟨rfl, rfl⟩

/-- C1 (counterpart): on a request with the `quickRead` flag set, the
top-rated handler performs two response emissions — first the quick-read
filtered set, then the unfiltered top-rated set — and on `cexStore` the
two sets differ, so the handler does send both sets for one request
instead of exactly one response. -/
theorem topRatedDualResponse :
    emissions (handle cexStore (.topRated (some "1"))) =
      [⟨200, .jsonBooks [book1]⟩, ⟨200, .jsonBooks [book1, book3]⟩] ∧
    ([book1] : List Book) ≠ [book1, book3] := by decide

/-- C2 (counterpart): querying the author route with the raw text `.`
returns the Stephen King record of the spec scenario dataset, although `.`
is not a case-insensitive literal substring of `"Stephen King"` — the raw
parameter is compiled into a pattern without escaping, so `.` acts as a
wildcard instead of matching literally. -/
theorem authorsPatternInjection :
    emissions (handle specDataset (.authors ".")) =
      [⟨200, .jsonBooks [book1, book2]⟩] ∧
    containsCI book1.authors "." = false := by decide

/-- C3 (counterpart): the author route has no try/catch, so a failure in
predicate construction — here the pattern `(`, a genuine `SyntaxError` of
the pattern compiler — escapes the handler uncaught instead of being
mapped to a 400 or 500 response. -/
theorem authorsUncaughtFailure :
    (handle specDataset (.authors "(")).2 =
      Except.error (JsError.badPattern "invalid or unmodelled pattern syntax") := rfl

/-- C7 (counterpart): on an author query matching zero records the handler
emits the 404 message and then, lacking a return, also emits a 200 with
the empty array — the 404 is not the only response issued for the
request. -/
theorem authorsZeroMatchDualResponse :
    emissions (handle specDataset (.authors "zzz")) =
      [⟨404, .jsonStr "Sorry, could not find any books by thay author, double check author name :("⟩,
       ⟨200, .jsonBooks []⟩] := by decide

/-- C8 (counterpart): the interleaving `seedRaceTrace` is admitted by the
startup code — the saves are fire-and-forget and `seedDatabase()` is not
awaited before `app.listen` — and in it a `GET /books` request served
after the bulk delete but before any insert completes observes the
just-emptied store and returns the empty array, not the dataset, even
though the reseed later completes and leaves exactly the dataset in the
store. -/
theorem seedingRaceObservable :
    validTrace specDataset.length seedRaceTrace = true ∧
    observations specDataset specDataset seedRaceTrace =
      [(.books, [⟨200, .jsonBooks []⟩])] ∧
    storeAfter specDataset specDataset seedRaceTrace = specDataset ∧
    specDataset ≠ [] := by decide

/-- C4 (counterexample): the string `4.5` does not parse as an integer,
yet `GET /books/book/4.5` on the spec scenario dataset responds 404 with
the not-found message, not 400 with the invalid-id error body: the store
casts the raw id to a number, not to an integer, and `4.5` casts
successfully. -/
theorem bookIdNonIntegerCounterexample :
    specParsesAsInteger "4.5" = false ∧
    emissions (handle specDataset (.book "4.5")) =
      [⟨404, .jsonStr "Sorry, no books found with that ID :("⟩] := by decide

/-- C4 (amended): for every raw id string whose numeric cast fails (the
`CastError` case of the store), the single-book route responds 400 with
the structured error body `error: "Invalid Book ID, double check book id
value"`, issuing no store operation and no other response. -/
theorem bookIdCastFailure400 (s : Store) (raw : String)
    (h : jsNumberParse raw = none) :
    handle s (.book raw) =
      ([], .ok [⟨400, .jsonErrObj "Invalid Book ID, double check book id value"⟩]) := by
  simp [handle, singleBookHandler, h]

/-- Witness for `bookIdCastFailure400` at the concrete raw id `abc`. -/
theorem bookIdCastFailure400_witness :
    handle specDataset (.book "abc") =
      ([], .ok [⟨400, .jsonErrObj "Invalid Book ID, double check book id value"⟩]) :=
  bookIdCastFailure400 specDataset "abc" (by decide)

/-- Unfolding lemma: the id-equality predicate as a function on records. -/
theorem evalPred_bookIdEq_finite (q : ℚ) :
    evalPred (QueryPred.bookIdEq (.finite q)) = fun b => decide (b.bookID = q) := by
  funext b
  rfl

/-- Unfolding lemma: the conjunctive rating/pages predicate as a function
on records. -/
theorem evalPred_avgPages :
    evalPred (QueryPred.avgRatingGteAndPagesLte 4 600) =
      fun b => decide ((4 : ℚ) ≤ b.average_rating) && decide (b.num_pages ≤ (600 : ℚ)) := by
  funext b
  rfl

/-- C5: for a raw id whose numeric cast yields the finite value `q`, the
single-book route returns 200 with the first record in store order whose
id equals `q` when one exists, and 404 with the not-found message when no
record has that id. -/
theorem bookLookupByStoredId (s : Store) (raw : String) (q : ℚ)
    (hp : jsNumberParse raw = some (.finite q)) :
    ((∃ b ∈ s, b.bookID = q) →
       ∃ b, firstMatchById s q b ∧
         emissions (handle s (.book raw)) = [⟨200, .jsonBook b⟩]) ∧
    ((∀ b ∈ s, b.bookID ≠ q) →
       emissions (handle s (.book raw)) =
         [⟨404, .jsonStr "Sorry, no books found with that ID :("⟩]) := by
  constructor
  · rintro ⟨b0, hb0, hid⟩
    have hsome : (s.find? (fun b => decide (b.bookID = q))).isSome := by
      rw [List.find?_isSome]
      exact ⟨b0, hb0, by simpa using hid⟩
    obtain ⟨b, hb⟩ := Option.isSome_iff_exists.mp hsome
    have hchar := List.find?_eq_some.mp hb
    obtain ⟨pre, post, hseq, hpre⟩ := hchar.2
    refine ⟨b, ⟨by simpa using hchar.1, pre, post, hseq, fun a ha => by simpa using hpre a ha⟩, ?_⟩
    simp [handle, singleBookHandler, hp, interpFindOne, evalPred_bookIdEq_finite, emissions, hb]
  · intro hnone
    have hfind : s.find? (fun b => decide (b.bookID = q)) = none :=
      List.find?_eq_none.mpr (fun b hb => by simpa using hnone b hb)
    simp [handle, singleBookHandler, hp, interpFindOne, evalPred_bookIdEq_finite, emissions, hfind]

/-- Witness for `bookLookupByStoredId` at the concrete raw ids `1`
(present in the spec scenario dataset) and the store `specDataset`. -/
theorem bookLookupByStoredId_witness :
    ((∃ b ∈ specDataset, b.bookID = 1) →
       ∃ b, firstMatchById specDataset 1 b ∧
         emissions (handle specDataset (.book "1")) = [⟨200, .jsonBook b⟩]) ∧
    ((∀ b ∈ specDataset, b.bookID ≠ 1) →
       emissions (handle specDataset (.book "1")) =
         [⟨404, .jsonStr "Sorry, no books found with that ID :("⟩]) :=
  bookLookupByStoredId specDataset "1" 1 (by decide)

/-- C6: when the `quickRead` query parameter carries any non-empty value
(the value `false` included), the response the client receives is a 200
whose body is exactly the records satisfying both `average_rating >= 4`
and `num_pages <= 600`, and every record of that body satisfies both
constraints. -/
theorem topRatedQuickReadFilter (s : Store) (q : String) (hq : q ≠ "") :
    clientView (handle s (.topRated (some q))) =
      some ⟨200, .jsonBooks (s.filter (fun b =>
        decide ((4 : ℚ) ≤ b.average_rating) && decide (b.num_pages ≤ (600 : ℚ))))⟩ ∧
    ∀ b ∈ s.filter (fun b =>
        decide ((4 : ℚ) ≤ b.average_rating) && decide (b.num_pages ≤ (600 : ℚ))),
      (4 : ℚ) ≤ b.average_rating ∧ b.num_pages ≤ (600 : ℚ) := by
  have ht : queryTruthy (some q) = true := by
    simp [queryTruthy, hq]
  constructor
  · simp [clientView, emissions, handle, topRatedHandler, ht, interpFind, evalPred_avgPages]
  · intro b hb
    rw [List.mem_filter] at hb
    have := hb.2
    simp only [Bool.and_eq_true, decide_eq_true_eq] at this
    exact this

/-- Witness for `topRatedQuickReadFilter` at the concrete flag value
`false` and the store `cexStore`. -/
theorem topRatedQuickReadFilter_witness :
    clientView (handle cexStore (.topRated (some "false"))) =
      some ⟨200, .jsonBooks (cexStore.filter (fun b =>
        decide ((4 : ℚ) ≤ b.average_rating) && decide (b.num_pages ≤ (600 : ℚ))))⟩ ∧
    ∀ b ∈ cexStore.filter (fun b =>
        decide ((4 : ℚ) ≤ b.average_rating) && decide (b.num_pages ≤ (600 : ℚ))),
      (4 : ℚ) ≤ b.average_rating ∧ b.num_pages ≤ (600 : ℚ) :=
  topRatedQuickReadFilter cexStore "false" (by decide)
